import Mathlib

/-!
Shallow embedding of the `fileio` Go package (a client for the file.io
file-hosting HTTP service) together with proofs about its behaviour.

The embedding covers:
* the expiration encoder `expires` (with a faithful model `itoa` of
  Go's `strconv.Itoa` on the values that occur);
* the JSON response decoder `parseJSON` (with a model `jsonUnmarshal`
  of `encoding/json.Unmarshal` restricted to the `Response` struct);
* the multipart body builder `createBody`, the upload orchestrators
  `Upload` / `UploadWithExpire` via `postBody`, and the download
  orchestrator `Download`, all parametrised by a pure transport
  (`HttpClient`) and an explicit file-system state (`FS`), recording
  the HTTP requests that are issued as an event trace.
-/

/-- `DefaultExpires` is the default number of days until the file will be
deleted by file.io (Go: `const DefaultExpires = 14`). -/
def DefaultExpires : Int := 14

/-- Decimal digit character, models the digit emission of `strconv.Itoa`. -/
def digitChar (d : Nat) : Char := Char.ofNat (48 + d)

/-- Most-significant-first decimal digits of `n`, fuel-structured so that it
reduces in the kernel. With `fuel ≥ n` it produces the digits of `n`
(empty for `n = 0`). -/
def itoaCore : Nat → Nat → List Char
  | 0, _ => []
  | fuel + 1, n =>
    if n = 0 then [] else itoaCore fuel (n / 10) ++ [digitChar (n % 10)]

/-- Model of `strconv.Itoa` on natural numbers: standard decimal notation. -/
def itoaNat (n : Nat) : String := if n = 0 then "0" else String.mk (itoaCore n n)

/-- Model of Go's `strconv.Itoa` on `int`. -/
def itoa (i : Int) : String :=
  if i < 0 then "-" ++ itoaNat i.natAbs else itoaNat i.toNat

/-- Decode a list of decimal digit characters back to a number; used to show
that `itoaNat` is injective. -/
def decList (l : List Char) : Nat := l.foldl (fun a c => a * 10 + (c.toNat - 48)) 0

/-- `expires` converts a number of days to the compact wire encoding expected
by the file.io API (Go: `func expires(days int) string`). All arithmetic
happens on values `≥ 1` (the `days < 1` guard returns first), where Lean's
`Int` division and modulus agree with Go's. -/
def expires (days : Int) : String :=
  if days < 1 then itoa DefaultExpires
  else if days % 7 = 0 then itoa (days / 7) ++ "w"
  else if days % 31 = 0 then itoa (days / 31) ++ "m"
  else if days % 365 = 0 then itoa (days / 365) ++ "y"
  else itoa days

-- ### Model of `encoding/json.Unmarshal` into the `Response` struct

/-- A parsed JSON value (the subset produced by the service: objects with
boolean, integer and string fields; arrays and null for completeness). -/
inductive JsonVal where
  | null
  | bool (b : Bool)
  | num (n : Int)
  | str (s : String)
  | arr (elems : List JsonVal)
  | obj (members : List (String × JsonVal))

/-- JSON insignificant whitespace. -/
def isWs (c : Char) : Bool := c = ' ' || c = '\t' || c = '\n' || c = '\r'

/-- Drop leading JSON whitespace. -/
def skipWs : List Char → List Char
  | [] => []
  | c :: cs => if isWs c then skipWs cs else c :: cs

/-- Translation of a JSON escape character (the character after a backslash). -/
def escChar (e : Char) : Option Char :=
  if e = '"' then some '"'
  else if e = '\\' then some '\\'
  else if e = '/' then some '/'
  else if e = 'n' then some '\n'
  else if e = 't' then some '\t'
  else if e = 'r' then some '\r'
  else if e = 'b' then some (Char.ofNat 8)
  else if e = 'f' then some (Char.ofNat 12)
  else none

/-- Parse the body of a JSON string literal (the opening quote already
consumed), fuel-structured so it reduces in the kernel. -/
def parseStringBody : Nat → List Char → List Char → Except String (String × List Char)
  | 0, _, _ => .error "out of fuel"
  | _ + 1, _, [] => .error "unexpected end of JSON input"
  | fuel + 1, acc, c :: rest =>
    if c = '"' then .ok (String.mk acc.reverse, rest)
    else if c = '\\' then
      match rest with
      | [] => .error "unexpected end of JSON input"
      | e :: rest1 =>
        match escChar e with
        | some ec => parseStringBody fuel (ec :: acc) rest1
        | none => .error "invalid escape in string literal"
    else parseStringBody fuel (c :: acc) rest

/-- Parse an unsigned JSON integer literal. -/
def parseNatNum (s : List Char) : Except String (Nat × List Char) :=
  let ds := s.takeWhile Char.isDigit
  if ds.isEmpty then .error "invalid character in numeric literal"
  else .ok (decList ds, s.drop ds.length)

/-- Parse a JSON integer literal with optional leading minus sign. -/
def parseNum : List Char → Except String (Int × List Char)
  | '-' :: rest =>
    match parseNatNum rest with
    | .error e => .error e
    | .ok (n, rest1) => .ok (-(n : Int), rest1)
  | s =>
    match parseNatNum s with
    | .error e => .error e
    | .ok (n, rest1) => .ok ((n : Int), rest1)

/-- Expect the given literal characters (rest of `true`/`false`/`null`). -/
def expectLit (lit : List Char) (s : List Char) (v : JsonVal) :
    Except String (JsonVal × List Char) :=
  if lit.isPrefixOf s then .ok (v, s.drop lit.length)
  else .error "invalid character in literal"

mutual

/-- Parse one JSON value starting at `s` (leading whitespace allowed). -/
def parseValue : Nat → List Char → Except String (JsonVal × List Char)
  | 0, _ => .error "out of fuel"
  | fuel + 1, s =>
    match skipWs s with
    | [] => .error "unexpected end of JSON input"
    | c :: rest =>
      if c = '"' then
        match parseStringBody (rest.length + 1) [] rest with
        | .error e => .error e
        | .ok (str, rest1) => .ok (.str str, rest1)
      else if c = '\x7b' then
        match skipWs rest with
        | '\x7d' :: rest1 => .ok (.obj [], rest1)
        | rest1 => parseMembers fuel rest1 []
      else if c = '[' then
        match skipWs rest with
        | ']' :: rest1 => .ok (.arr [], rest1)
        | rest1 => parseElems fuel rest1 []
      else if c = 't' then expectLit ['r', 'u', 'e'] rest (.bool true)
      else if c = 'f' then expectLit ['a', 'l', 's', 'e'] rest (.bool false)
      else if c = 'n' then expectLit ['u', 'l', 'l'] rest .null
      else if c = '-' || c.isDigit then
        match parseNum (c :: rest) with
        | .error e => .error e
        | .ok (n, rest1) => .ok (.num n, rest1)
      else .error "invalid character looking for beginning of value"

/-- Parse the members of a JSON object, positioned at the first key. -/
def parseMembers : Nat → List Char → List (String × JsonVal) →
    Except String (JsonVal × List Char)
  | 0, _, _ => .error "out of fuel"
  | fuel + 1, s, acc =>
    match skipWs s with
    | '"' :: rest =>
      match parseStringBody (rest.length + 1) [] rest with
      | .error e => .error e
      | .ok (key, rest1) =>
        match skipWs rest1 with
        | ':' :: rest2 =>
          match parseValue fuel rest2 with
          | .error e => .error e
          | .ok (v, rest3) =>
            match skipWs rest3 with
            | ',' :: rest4 => parseMembers fuel rest4 (acc ++ [(key, v)])
            | '\x7d' :: rest4 => .ok (.obj (acc ++ [(key, v)]), rest4)
            | [] => .error "unexpected end of JSON input"
            | _ => .error "invalid character after object member"
        | [] => .error "unexpected end of JSON input"
        | _ => .error "invalid character after object key"
    | [] => .error "unexpected end of JSON input"
    | _ => .error "invalid character looking for object key"

/-- Parse the elements of a JSON array, positioned at the first element. -/
def parseElems : Nat → List Char → List JsonVal →
    Except String (JsonVal × List Char)
  | 0, _, _ => .error "out of fuel"
  | fuel + 1, s, acc =>
    match parseValue fuel s with
    | .error e => .error e
    | .ok (v, rest1) =>
      match skipWs rest1 with
      | ',' :: rest2 => parseElems fuel rest2 (acc ++ [v])
      | ']' :: rest2 => .ok (.arr (acc ++ [v]), rest2)
      | [] => .error "unexpected end of JSON input"
      | _ => .error "invalid character after array element"

end

/-- `Response` contains a FileIO response (Go struct `Response` with its
`json:` tags `success`, `error`, `message`, `expiry`, `key`). -/
structure Response where
  Success : Bool
  Code : Int
  Err : String
  Expiry : String
  Key : String
deriving DecidableEq

/-- The zero value of `Response` (Go: `&Response{}`). -/
def zeroResponse : Response :=
  { Success := false, Code := 0, Err := "", Expiry := "", Key := "" }

/-- Assign one decoded JSON object member into the `Response` struct, as
`encoding/json` does: matching `json:` tag wins, `null` leaves the field,
unknown fields are ignored, a type mismatch is an unmarshal error. -/
def setField (r : Response) (k : String) (v : JsonVal) : Except String Response :=
  if k = "success" then
    match v with
    | .bool b => .ok { r with Success := b }
    | .null => .ok r
    | _ => .error "json: cannot unmarshal value into field success of type bool"
  else if k = "error" then
    match v with
    | .num n => .ok { r with Code := n }
    | .null => .ok r
    | _ => .error "json: cannot unmarshal value into field error of type int"
  else if k = "message" then
    match v with
    | .str s => .ok { r with Err := s }
    | .null => .ok r
    | _ => .error "json: cannot unmarshal value into field message of type string"
  else if k = "expiry" then
    match v with
    | .str s => .ok { r with Expiry := s }
    | .null => .ok r
    | _ => .error "json: cannot unmarshal value into field expiry of type string"
  else if k = "key" then
    match v with
    | .str s => .ok { r with Key := s }
    | .null => .ok r
    | _ => .error "json: cannot unmarshal value into field key of type string"
  else .ok r

/-- Model of `json.Unmarshal(data, &Response{})` on the JSON subset the
service emits: the bytes must hold exactly one JSON value, and it must be
an object, whose members are assigned into the struct in order. -/
def jsonUnmarshal (data : String) : Except String Response :=
  match skipWs data.data with
  | [] => .error "unexpected end of JSON input"
  | s =>
    match parseValue (s.length + 1) s with
    | .error e => .error e
    | .ok (v, rest) =>
      if (skipWs rest).isEmpty then
        match v with
        | .obj kvs => kvs.foldlM (fun r kv => setField r kv.1 kv.2) zeroResponse
        | _ => .error "json: cannot unmarshal value into Go value of type fileio.Response"
      else .error "invalid character after top-level value"

/-- A Go `error` value, tagged with the package that produced it: an
`encoding/json` decode error, an error built with `errors.New`, an `os`
file error, or a transport failure from the HTTP client. -/
inductive GoError where
  | jsonError (msg : String)
  | newError (msg : String)
  | osError (msg : String)
  | transportError (msg : String)
deriving DecidableEq

/-- `parseJSON` decodes a response body (Go: `func parseJSON(data []byte)
(*Response, error)`): on an unmarshal error it returns that error; when the
decoded response has `Success = false` it returns `errors.New(res.Err)`;
otherwise the response with no error. (Go returns the partially-filled
struct alongside an unmarshal error; no caller reads it, and the model
returns the zero value there.) -/
def parseJSON (data : String) : Response × Option GoError :=
  match jsonUnmarshal data with
  | .error e => (zeroResponse, some (.jsonError e))
  | .ok res => if !res.Success then (res, some (.newError res.Err)) else (res, none)

-- ### File system, transport seam and multipart body

/-- Explicit file-system state: `files` maps a path to its byte contents
(`os.Open` succeeds exactly on listed paths), `badCreate` lists paths on
which `os.Create` fails. -/
structure FS where
  files : List (String × String)
  badCreate : List String
deriving DecidableEq

/-- `os.Open` for reading: the contents of the file, if it exists. -/
def FS.readFile (fs : FS) (path : String) : Option String :=
  fs.files.lookup path

/-- `os.Create` followed by writing `content`: the path now holds `content`
(the new entry shadows any older one in the association list). -/
def FS.write (fs : FS) (path content : String) : FS :=
  { fs with files := (path, content) :: fs.files }

/-- The multipart/form-data body built by `mime/multipart`, abstracted to
its structured content: the boundary and the parts, each part being
(field name, file name, contents). -/
structure MultipartBody where
  boundary : String
  parts : List (String × String × String)
deriving DecidableEq

/-- An HTTP response as the orchestrators see it: status code, status line
and the (fully read) body. -/
structure HTTPResponse where
  statusCode : Nat
  status : String
  body : String
deriving DecidableEq

/-- The transport seam (Go interface `httpClient` with `Get` and `Post`),
modelled as a pure function of the request; an `Except.error` is a
transport failure returned by the client itself. -/
structure HttpClient where
  get : String → Except GoError HTTPResponse
  post : String → String → MultipartBody → Except GoError HTTPResponse

/-- One HTTP request issued through the transport seam. -/
inductive Event where
  | getEv (url : String)
  | postEv (url : String) (bodyType : String) (body : MultipartBody)
deriving DecidableEq

/-- `createBody` builds the multipart form for one file (Go:
`func createBody(file string) (*bytes.Buffer, string, error)`): one part
with field name `"file"` and file name the given path, holding the file's
bytes, plus the content type with the writer's boundary
(`multipart.Writer.FormDataContentType`). The boundary — random in Go —
is an explicit parameter. Failure is the `os.Open` error when the path
cannot be read. -/
def createBody (fs : FS) (boundary : String) (file : String) :
    Except GoError (MultipartBody × String) :=
  match fs.readFile file with
  | none => .error (.osError ("open " ++ file ++ ": no such file or directory"))
  | some content =>
      .ok ({ boundary := boundary, parts := [("file", file, content)] },
        "multipart/form-data; boundary=" ++ boundary)

/-- `postBody` uploads a file and decodes the response (Go:
`func postBody(file, url string) (*Response, error)`), returning the Go
result pair together with the trace of HTTP requests issued. -/
def postBody (api : HttpClient) (fs : FS) (boundary : String) (file url : String) :
    (Option Response × Option GoError) × List Event :=
  match createBody fs boundary file with
  | .error e => ((none, some e), [])
  | .ok (body, bodyType) =>
    match api.post url bodyType body with
    | .error e => ((none, some e), [.postEv url bodyType body])
    | .ok resp =>
        let p := parseJSON resp.body
        ((some p.1, p.2), [.postEv url bodyType body])

/-- `Upload` uploads a file to file.io and returns its key (Go:
`func Upload(file string) (string, error)`; it posts to `URL` itself, here
the parameter `url`). The result is the Go pair plus the request trace. -/
def Upload (api : HttpClient) (fs : FS) (boundary url file : String) :
    (String × Option GoError) × List Event :=
  let r := postBody api fs boundary file url
  match r.1.2 with
  | some e => (("", some e), r.2)
  | none =>
    match r.1.1 with
    | some rs => ((rs.Key, none), r.2)
    | none => (("", none), r.2)

/-- `UploadWithExpire` uploads a file and sets the expiration in days (Go:
`func UploadWithExpire(file string, days int) (string, string, error)`; it
posts to `URL + "/?expires=" + expires(days)`). -/
def UploadWithExpire (api : HttpClient) (fs : FS) (boundary url file : String)
    (days : Int) : (String × String × Option GoError) × List Event :=
  let r := postBody api fs boundary file (url ++ "/?expires=" ++ expires days)
  match r.1.2 with
  | some e => (("", "", some e), r.2)
  | none =>
    match r.1.1 with
    | some rs => ((rs.Key, rs.Expiry, none), r.2)
    | none => (("", "", none), r.2)

/-- `Download` downloads the file behind the key to the given file (Go:
`func Download(key, file string) (err error)`): one GET to `url/key`; a
non-200 status becomes `errors.New(resp.Status)`; then the destination is
created and the body copied into it. Returns the final file system, the
error and the request trace. -/
def Download (api : HttpClient) (fs : FS) (url key file : String) :
    (FS × Option GoError) × List Event :=
  match api.get (url ++ "/" ++ key) with
  | .error e => ((fs, some e), [.getEv (url ++ "/" ++ key)])
  | .ok resp =>
    if resp.statusCode ≠ 200 then
      ((fs, some (.newError resp.status)), [.getEv (url ++ "/" ++ key)])
    else if fs.badCreate.contains file then
      ((fs, some (.osError ("create " ++ file ++ ": permission denied"))),
        [.getEv (url ++ "/" ++ key)])
    else ((fs.write file resp.body, none), [.getEv (url ++ "/" ++ key)])

/-- The base name of a path: the final path component. Modelled from the
spec: the claim about `createBody` speaks of "the base name of the input
path" (Go's `filepath.Base` on slash-separated paths). -/
def basename (p : String) : String :=
  String.mk ((p.data.reverse.takeWhile (fun c => c ≠ '/')).reverse)

/-- File system used in concrete instantiations: one readable file, no
path on which `os.Create` fails. -/
def testFS : FS := { files := [("test.txt", "This is a test")], badCreate := [] }

/-- A transport that always fails (the test double used when the base URL
has no scheme: `errors.New("No transport")`). -/
def noTransportClient : HttpClient :=
  { get := fun _ => .error (.transportError "No transport"),
    post := fun _ _ _ => .error (.transportError "No transport") }

/-- A 200 response carrying a successful upload answer. -/
def okUploadResp : HTTPResponse :=
  ⟨200, "200 OK", "\x7b\"success\":true,\"key\":\"2ojE41\"\x7d"⟩

/-- The service's 404 response. -/
def notFoundResp : HTTPResponse :=
  ⟨404, "Not Found", "\x7b\"success\":false,\"error\":404,\"message\":\"Not Found\"\x7d"⟩

/-- A transport whose every response is a successful upload answer. -/
def okClient : HttpClient :=
  { get := fun _ => .ok okUploadResp, post := fun _ _ _ => .ok okUploadResp }

/-- A transport whose every response is the service's 404 answer. -/
def notFoundClient : HttpClient :=
  { get := fun _ => .ok notFoundResp, post := fun _ _ _ => .ok notFoundResp }

/-- The multipart body built from `testFS`'s `test.txt` with boundary `"B"`. -/
def uploadBody : MultipartBody :=
  { boundary := "B", parts := [("file", "test.txt", "This is a test")] }

/-- The file system holding the example path `/data/file.txt`. -/
def pathFS : FS := { files := [("/data/file.txt", "hello")], badCreate := [] }

/-- The multipart body `createBody` builds for `/data/file.txt`. -/
def pathBody : MultipartBody :=
  { boundary := "B", parts := [("file", "/data/file.txt", "hello")] }

-- ### Helper lemmas about `itoa`

theorem decList_append (l : List Char) (c : Char) :
    decList (l ++ [c]) = decList l * 10 + (c.toNat - 48) := by
  simp [decList, List.foldl_append]

theorem digitChar_toNat {d : Nat} (h : d < 10) : (digitChar d).toNat = 48 + d := by
  interval_cases d <;> decide

theorem decList_itoaCore (fuel : Nat) :
    ∀ n : Nat, n ≤ fuel → decList (itoaCore fuel n) = n := by
  induction fuel with
  | zero => intro n hn; interval_cases n; decide
  | succ fuel ih =>
    intro n hn
    by_cases h0 : n = 0
    · subst h0; simp [itoaCore, decList]
    · have hdiv : n / 10 ≤ fuel := by
        have := Nat.div_lt_self (Nat.pos_of_ne_zero h0) (by norm_num : 1 < 10)
        omega
      have hlt : n % 10 < 10 := Nat.mod_lt _ (by norm_num)
      simp only [itoaCore, if_neg h0]
      rw [decList_append, ih _ hdiv, digitChar_toNat hlt]
      omega

theorem decList_itoaNat (n : Nat) : decList (itoaNat n).data = n := by
  by_cases h0 : n = 0
  · subst h0; decide
  · simp only [itoaNat, if_neg h0]
    exact decList_itoaCore n n le_rfl

theorem itoaNat_inj {a b : Nat} (h : itoaNat a = itoaNat b) : a = b := by
  have := congrArg (fun s => decList s.data) h
  simpa [decList_itoaNat] using this

-- ### Further helper lemmas

theorem data_append (s t : String) : (s ++ t).data = s.data ++ t.data := by
  cases s; cases t; rfl

theorem append_ne_14 (s t : String) (c : Char) (hc : t.data = [c])
    (h : 14 < c.toNat - 48) : s ++ t ≠ "14" := by
  intro heq
  have hd : s.data ++ [c] = ['1', '4'] := by
    have h2 := congrArg String.data heq
    rw [data_append, hc] at h2
    exact h2
  have h3 := congrArg decList hd
  rw [decList_append] at h3
  have h14 : decList ['1', '4'] = 14 := by decide
  omega

-- ### Claims about the expiration encoder

/-- C1: for every integer `days`, `expires days` follows the spec's encoding
algorithm: `days < 1` yields the string form of the default 14; otherwise
divisibility is checked in the fixed order weeks (7), months (31),
years (365), the first match giving `"<days/7>w"`, `"<days/31>m"` or
`"<days/365>y"`; with no match the plain decimal day count is returned; and
`expires 217 = "31w"` because the weeks check runs first. -/
theorem expires_follows_encoding_algorithm (days : Int) :
    (days < 1 → expires days = "14") ∧
    (1 ≤ days → days % 7 = 0 → expires days = itoa (days / 7) ++ "w") ∧
    (1 ≤ days → days % 7 ≠ 0 → days % 31 = 0 →
      expires days = itoa (days / 31) ++ "m") ∧
    (1 ≤ days → days % 7 ≠ 0 → days % 31 ≠ 0 → days % 365 = 0 →
      expires days = itoa (days / 365) ++ "y") ∧
    (1 ≤ days → days % 7 ≠ 0 → days % 31 ≠ 0 → days % 365 ≠ 0 →
      expires days = itoa days) ∧
    expires 217 = "31w" := by
  refine ⟨?_, ?_, ?_, ?_, ?_, by decide⟩
  · intro h; unfold expires; rw [if_pos h]; decide
  · intro h1 h7
    unfold expires
    rw [if_neg (by omega), if_pos h7]
  · intro h1 h7 h31
    unfold expires
    rw [if_neg (by omega), if_neg h7, if_pos h31]
  · intro h1 h7 h31 h365
    unfold expires
    rw [if_neg (by omega), if_neg h7, if_neg h31, if_pos h365]
  · intro h1 h7 h31 h365
    unfold expires
    rw [if_neg (by omega), if_neg h7, if_neg h31, if_neg h365]

theorem expires_follows_encoding_algorithm_witness :
    expires (-3) = "14" ∧ expires 7 = itoa (7 / 7) ++ "w" ∧
    expires 31 = itoa (31 / 31) ++ "m" ∧ expires 730 = itoa (730 / 365) ++ "y" ∧
    expires 12 = itoa 12 ∧ expires 217 = "31w" :=
  ⟨(expires_follows_encoding_algorithm (-3)).1 (by decide),
   (expires_follows_encoding_algorithm 7).2.1 (by decide) (by decide),
   (expires_follows_encoding_algorithm 31).2.2.1 (by decide) (by decide) (by decide),
   (expires_follows_encoding_algorithm 730).2.2.2.1 (by decide) (by decide)
     (by decide) (by decide),
   (expires_follows_encoding_algorithm 12).2.2.2.2.1 (by decide) (by decide)
     (by decide) (by decide),
   (expires_follows_encoding_algorithm 217).2.2.2.2.2⟩

/-- C9: `expires days = "14"` exactly when `days < 1`; the input 14 itself is
divisible by 7 and encodes as `"2w"`, so requesting exactly 14 days sends a
different wire value than the default used for non-positive input. -/
theorem expires_default_string_only_for_nonpositive (days : Int) :
    (expires days = "14" ↔ days < 1) ∧ expires 14 = "2w" ∧ expires 14 ≠ expires 0 := by
  refine ⟨?_, by decide, by decide⟩
  unfold expires
  split_ifs with h1 h7 h31 h365
  · exact iff_of_true (by decide) h1
  · exact iff_of_false (append_ne_14 _ "w" 'w' (by decide) (by decide)) h1
  · exact iff_of_false (append_ne_14 _ "m" 'm' (by decide) (by decide)) h1
  · exact iff_of_false (append_ne_14 _ "y" 'y' (by decide) (by decide)) h1
  · refine iff_of_false ?_ h1
    intro he
    rw [itoa, if_neg (by omega)] at he
    have h14 : days.toNat = 14 := itoaNat_inj (he.trans (by decide : itoaNat 14 = "14").symm)
    have : days = 14 := by omega
    subst this
    exact h7 (by decide)

theorem expires_default_string_only_for_nonpositive_witness :
    expires 14 = "2w" ∧ expires 0 = "14" :=
  ⟨(expires_default_string_only_for_nonpositive 14).2.1,
   ((expires_default_string_only_for_nonpositive 0).1).mpr (by decide)⟩

-- ### Claims about the response decoder

/-- C4: whenever the bytes decode as valid JSON whose `success` field is
`false`, `parseJSON` returns the service-supplied response verbatim (code
and message untouched) together with `errors.New` of that message; in
particular the documented 404 body yields exactly the message
`"Not Found"`. -/
theorem parseJSON_service_error_verbatim (data : String) (r : Response)
    (hok : jsonUnmarshal data = .ok r) (hf : r.Success = false) :
    parseJSON data = (r, some (.newError r.Err)) ∧
    parseJSON "\x7b\"success\":false,\"error\":404,\"message\":\"Not Found\"\x7d" =
      ({ Success := false, Code := 404, Err := "Not Found", Expiry := "", Key := "" },
        some (.newError "Not Found")) := by
  refine ⟨?_, by decide⟩
  unfold parseJSON
  rw [hok]
  simp [hf]

theorem parseJSON_service_error_verbatim_witness :
    parseJSON "\x7b\"success\":false,\"error\":404,\"message\":\"Not Found\"\x7d" =
      ({ Success := false, Code := 404, Err := "Not Found", Expiry := "", Key := "" },
        some (.newError "Not Found")) :=
  (parseJSON_service_error_verbatim
      "\x7b\"success\":false,\"error\":404,\"message\":\"Not Found\"\x7d"
      { Success := false, Code := 404, Err := "Not Found", Expiry := "", Key := "" }
      (by rfl) (by rfl)).1

/-- C7: whenever the bytes do not decode as valid JSON — in particular the
empty byte sequence — `parseJSON` returns the JSON parse error and never a
success result. -/
theorem parseJSON_malformed_input_fails (data e : String)
    (he : jsonUnmarshal data = .error e) :
    parseJSON data = (zeroResponse, some (.jsonError e)) ∧
    (parseJSON data).2 ≠ none ∧
    parseJSON "" = (zeroResponse, some (.jsonError "unexpected end of JSON input")) := by
  have h1 : parseJSON data = (zeroResponse, some (.jsonError e)) := by
    unfold parseJSON; rw [he]
  exact ⟨h1, by rw [h1]; simp, by decide⟩

theorem parseJSON_malformed_input_fails_witness :
    parseJSON "" = (zeroResponse, some (.jsonError "unexpected end of JSON input")) ∧
    (parseJSON "").2 ≠ none :=
  ⟨(parseJSON_malformed_input_fails "" "unexpected end of JSON input" (by rfl)).1,
   (parseJSON_malformed_input_fails "" "unexpected end of JSON input" (by rfl)).2.1⟩

-- ### Helper lemmas about `parseJSON` and the orchestrators

theorem parseJSON_snd_none_success (data : String) :
    (parseJSON data).2 = none → (parseJSON data).1.Success = true := by
  unfold parseJSON
  cases jsonUnmarshal data with
  | error e => intro h; simp at h
  | ok res =>
    cases hres : res.Success with
    | false => intro h; simp [hres] at h
    | true => intro _; simp [hres]

theorem parseJSON_success_false_snd_some (data : String) :
    (parseJSON data).1.Success = false → (parseJSON data).2 ≠ none := by
  unfold parseJSON
  cases jsonUnmarshal data with
  | error e => intro _; simp
  | ok res =>
    cases hres : res.Success with
    | false => intro _; simp [hres]
    | true => intro h; simp [hres] at h

theorem postBody_createBody_error (api : HttpClient) (fs : FS)
    (b file url : String) (e : GoError) (h : createBody fs b file = .error e) :
    postBody api fs b file url = ((none, some e), []) := by
  unfold postBody; rw [h]

theorem postBody_post_error (api : HttpClient) (fs : FS) (b file url : String)
    (body : MultipartBody) (ct : String) (e : GoError)
    (hcb : createBody fs b file = .ok (body, ct))
    (hp : api.post url ct body = .error e) :
    postBody api fs b file url = ((none, some e), [.postEv url ct body]) := by
  simp only [postBody, hcb, hp]

theorem postBody_post_ok (api : HttpClient) (fs : FS) (b file url : String)
    (body : MultipartBody) (ct : String) (resp : HTTPResponse)
    (hcb : createBody fs b file = .ok (body, ct))
    (hp : api.post url ct body = .ok resp) :
    postBody api fs b file url =
      ((some (parseJSON resp.body).1, (parseJSON resp.body).2),
        [.postEv url ct body]) := by
  simp only [postBody, hcb, hp]

theorem Upload_of_postBody_error (api : HttpClient) (fs : FS)
    (b url file : String) (rs : Option Response) (e : GoError) (tr : List Event)
    (h : postBody api fs b file url = ((rs, some e), tr)) :
    Upload api fs b url file = (("", some e), tr) := by
  unfold Upload; rw [h]

theorem Upload_of_postBody_ok (api : HttpClient) (fs : FS)
    (b url file : String) (rs : Response) (tr : List Event)
    (h : postBody api fs b file url = ((some rs, none), tr)) :
    Upload api fs b url file = ((rs.Key, none), tr) := by
  unfold Upload; rw [h]

theorem UploadWithExpire_of_postBody_error (api : HttpClient) (fs : FS)
    (b url file : String) (days : Int) (rs : Option Response) (e : GoError)
    (tr : List Event)
    (h : postBody api fs b file (url ++ "/?expires=" ++ expires days) = ((rs, some e), tr)) :
    UploadWithExpire api fs b url file days = (("", "", some e), tr) := by
  unfold UploadWithExpire; rw [h]

theorem UploadWithExpire_of_postBody_ok (api : HttpClient) (fs : FS)
    (b url file : String) (days : Int) (rs : Response) (tr : List Event)
    (h : postBody api fs b file (url ++ "/?expires=" ++ expires days) = ((some rs, none), tr)) :
    UploadWithExpire api fs b url file days = ((rs.Key, rs.Expiry, none), tr) := by
  unfold UploadWithExpire; rw [h]

-- ### Claims about the upload orchestrators

/-- C6: when the file cannot be opened for reading, `Upload` and
`UploadWithExpire` fail with the `os.Open` error and the request trace is
empty — the POST is never issued. -/
theorem upload_open_failure_before_network (api : HttpClient) (fs : FS)
    (b url file : String) (days : Int) (h : fs.readFile file = none) :
    Upload api fs b url file =
      (("", some (.osError ("open " ++ file ++ ": no such file or directory"))), []) ∧
    UploadWithExpire api fs b url file days =
      (("", "", some (.osError ("open " ++ file ++ ": no such file or directory"))), []) := by
  have hcb : createBody fs b file =
      .error (.osError ("open " ++ file ++ ": no such file or directory")) := by
    unfold createBody; rw [h]
  exact ⟨Upload_of_postBody_error api fs b url file none _ []
      (postBody_createBody_error api fs b file url _ hcb),
    UploadWithExpire_of_postBody_error api fs b url file days none _ []
      (postBody_createBody_error api fs b file _ _ hcb)⟩

theorem upload_open_failure_before_network_witness :
    Upload noTransportClient testFS "B" "https://file.io" "test2.txt" =
      (("", some (.osError ("open " ++ "test2.txt" ++ ": no such file or directory"))), []) ∧
    UploadWithExpire noTransportClient testFS "B" "https://file.io" "test2.txt" 5 =
      (("", "", some (.osError ("open " ++ "test2.txt" ++ ": no such file or directory"))), []) :=
  upload_open_failure_before_network noTransportClient testFS "B" "https://file.io"
    "test2.txt" 5 (by rfl)

/-- C10: an error from `Upload` comes with an empty key, and an error from
`UploadWithExpire` comes with an empty key and an empty expiry: no partial
result accompanies an error. -/
theorem upload_error_no_partial_result (api : HttpClient) (fs : FS)
    (b url file : String) (days : Int) (e : GoError) :
    ((Upload api fs b url file).1.2 = some e → (Upload api fs b url file).1.1 = "") ∧
    ((UploadWithExpire api fs b url file days).1.2.2 = some e →
      (UploadWithExpire api fs b url file days).1.1 = "" ∧
      (UploadWithExpire api fs b url file days).1.2.1 = "") := by
  constructor
  · rcases hpb : postBody api fs b file url with ⟨⟨rs, err⟩, tr⟩
    unfold Upload
    rw [hpb]
    cases err with
    | some e2 => intro _; rfl
    | none => cases rs <;> intro h <;> simp at h
  · rcases hpb : postBody api fs b file (url ++ "/?expires=" ++ expires days)
      with ⟨⟨rs, err⟩, tr⟩
    unfold UploadWithExpire
    rw [hpb]
    cases err with
    | some e2 => intro _; exact ⟨rfl, rfl⟩
    | none => cases rs <;> intro h <;> simp at h

theorem postBody_trace_ok (api : HttpClient) (fs : FS) (b file u : String)
    (body : MultipartBody) (ct : String)
    (hcb : createBody fs b file = .ok (body, ct)) :
    (postBody api fs b file u).2 = [.postEv u ct body] := by
  cases hp : api.post u ct body with
  | error e => rw [postBody_post_error api fs b file u body ct e hcb hp]
  | ok resp => rw [postBody_post_ok api fs b file u body ct resp hcb hp]

theorem Upload_trace_eq (api : HttpClient) (fs : FS) (b url file : String) :
    (Upload api fs b url file).2 = (postBody api fs b file url).2 := by
  rcases hpb : postBody api fs b file url with ⟨⟨rs, err⟩, tr⟩
  unfold Upload
  rw [hpb]
  cases err
  · cases rs <;> rfl
  · rfl

theorem Upload_err_eq (api : HttpClient) (fs : FS) (b url file : String) :
    (Upload api fs b url file).1.2 = (postBody api fs b file url).1.2 := by
  rcases hpb : postBody api fs b file url with ⟨⟨rs, err⟩, tr⟩
  unfold Upload
  rw [hpb]
  cases err
  · cases rs <;> rfl
  · rfl

theorem UploadWithExpire_trace_eq (api : HttpClient) (fs : FS)
    (b url file : String) (days : Int) :
    (UploadWithExpire api fs b url file days).2 =
      (postBody api fs b file (url ++ "/?expires=" ++ expires days)).2 := by
  rcases hpb : postBody api fs b file (url ++ "/?expires=" ++ expires days)
    with ⟨⟨rs, err⟩, tr⟩
  unfold UploadWithExpire
  rw [hpb]
  cases err
  · cases rs <;> rfl
  · rfl

theorem UploadWithExpire_err_eq (api : HttpClient) (fs : FS)
    (b url file : String) (days : Int) :
    (UploadWithExpire api fs b url file days).1.2.2 =
      (postBody api fs b file (url ++ "/?expires=" ++ expires days)).1.2 := by
  rcases hpb : postBody api fs b file (url ++ "/?expires=" ++ expires days)
    with ⟨⟨rs, err⟩, tr⟩
  unfold UploadWithExpire
  rw [hpb]
  cases err
  · cases rs <;> rfl
  · rfl

theorem upload_error_no_partial_result_witness :
    ((Upload noTransportClient testFS "B" "u" "test.txt").1.2 =
        some (.transportError "No transport") →
      (Upload noTransportClient testFS "B" "u" "test.txt").1.1 = "") ∧
    (Upload noTransportClient testFS "B" "u" "test.txt").1.1 = "" ∧
    (UploadWithExpire noTransportClient testFS "B" "u" "test.txt" 5).1.1 = "" ∧
    (UploadWithExpire noTransportClient testFS "B" "u" "test.txt" 5).1.2.1 = "" :=
  have ht := upload_error_no_partial_result noTransportClient testFS "B" "u" "test.txt" 5
    (.transportError "No transport")
  ⟨ht.1, ht.1 (by rfl), (ht.2 (by rfl)).1, (ht.2 (by rfl)).2⟩

/-- C8: whenever `Upload` or `UploadWithExpire` returns no error, the decoded
response had `success = true` and the returned key is that response's key;
and at the decoder, a response with `success = false` always carries an
error — so a decoded `success = false` is always error-facing. -/
theorem upload_success_flag_governs_result (api : HttpClient) (fs : FS)
    (b url file : String) (days : Int) :
    ((Upload api fs b url file).1.2 = none →
      ∃ body ct resp, createBody fs b file = .ok (body, ct) ∧
        api.post url ct body = .ok resp ∧
        (parseJSON resp.body).1.Success = true ∧
        (Upload api fs b url file).1.1 = (parseJSON resp.body).1.Key) ∧
    ((UploadWithExpire api fs b url file days).1.2.2 = none →
      ∃ body ct resp, createBody fs b file = .ok (body, ct) ∧
        api.post (url ++ "/?expires=" ++ expires days) ct body = .ok resp ∧
        (parseJSON resp.body).1.Success = true ∧
        (UploadWithExpire api fs b url file days).1.1 = (parseJSON resp.body).1.Key) ∧
    (∀ data : String, (parseJSON data).1.Success = false → (parseJSON data).2 ≠ none) := by
  refine ⟨?_, ?_, fun data h => parseJSON_success_false_snd_some data h⟩
  · intro h
    cases hcb : createBody fs b file with
    | error e =>
      rw [Upload_of_postBody_error api fs b url file none e []
        (postBody_createBody_error api fs b file url e hcb)] at h
      simp at h
    | ok bc =>
      obtain ⟨body, ct⟩ := bc
      cases hp : api.post url ct body with
      | error e =>
        rw [Upload_of_postBody_error api fs b url file none e _
          (postBody_post_error api fs b file url body ct e hcb hp)] at h
        simp at h
      | ok resp =>
        have hpb := postBody_post_ok api fs b file url body ct resp hcb hp
        cases hq : (parseJSON resp.body).2 with
        | some e2 =>
          rw [hq] at hpb
          rw [Upload_of_postBody_error api fs b url file _ e2 _ hpb] at h
          simp at h
        | none =>
          rw [hq] at hpb
          have hU := Upload_of_postBody_ok api fs b url file _ _ hpb
          exact ⟨body, ct, resp, rfl, hp, parseJSON_snd_none_success resp.body hq,
            by rw [hU]⟩
  · intro h
    cases hcb : createBody fs b file with
    | error e =>
      rw [UploadWithExpire_of_postBody_error api fs b url file days none e []
        (postBody_createBody_error api fs b file _ e hcb)] at h
      simp at h
    | ok bc =>
      obtain ⟨body, ct⟩ := bc
      cases hp : api.post (url ++ "/?expires=" ++ expires days) ct body with
      | error e =>
        rw [UploadWithExpire_of_postBody_error api fs b url file days none e _
          (postBody_post_error api fs b file _ body ct e hcb hp)] at h
        simp at h
      | ok resp =>
        have hpb := postBody_post_ok api fs b file (url ++ "/?expires=" ++ expires days)
          body ct resp hcb hp
        cases hq : (parseJSON resp.body).2 with
        | some e2 =>
          rw [hq] at hpb
          rw [UploadWithExpire_of_postBody_error api fs b url file days _ e2 _ hpb] at h
          simp at h
        | none =>
          rw [hq] at hpb
          have hU := UploadWithExpire_of_postBody_ok api fs b url file days _ _ hpb
          exact ⟨body, ct, resp, rfl, hp, parseJSON_snd_none_success resp.body hq,
            by rw [hU]⟩

theorem upload_success_flag_governs_result_witness :
    ∃ body ct resp, createBody testFS "B" "test.txt" = .ok (body, ct) ∧
      okClient.post "https://file.io" ct body = .ok resp ∧
      (parseJSON resp.body).1.Success = true ∧
      (Upload okClient testFS "B" "https://file.io" "test.txt").1.1 =
        (parseJSON resp.body).1.Key :=
  (upload_success_flag_governs_result okClient testFS "B" "https://file.io"
    "test.txt" 5).1 (by rfl)

-- ### Claims about the download orchestrator

/-- C5: when the GET response status is not 200 OK, `Download` fails with the
status text as the error detail and leaves the file system untouched (the
same holds when the GET itself fails); the destination is written only
after the status check passes. -/
theorem download_failure_no_destination_write (api : HttpClient) (fs : FS)
    (url key file : String) :
    (∀ resp, api.get (url ++ "/" ++ key) = .ok resp → resp.statusCode ≠ 200 →
      Download api fs url key file =
        ((fs, some (.newError resp.status)), [.getEv (url ++ "/" ++ key)])) ∧
    (∀ e, api.get (url ++ "/" ++ key) = .error e →
      Download api fs url key file = ((fs, some e), [.getEv (url ++ "/" ++ key)])) ∧
    (∀ resp, api.get (url ++ "/" ++ key) = .ok resp → resp.statusCode = 200 →
      fs.badCreate.contains file = false →
      Download api fs url key file =
        ((fs.write file resp.body, none), [.getEv (url ++ "/" ++ key)])) := by
  refine ⟨?_, ?_, ?_⟩
  · intro resp hget hst
    unfold Download
    rw [hget]
    simp [hst]
  · intro e hget
    unfold Download
    rw [hget]
  · intro resp hget hst hbad
    unfold Download
    rw [hget]
    simp [hst]
    simpa using hbad

theorem download_failure_no_destination_write_witness :
    Download notFoundClient testFS "https://file.io" "not_exists" "test2.txt" =
      ((testFS, some (.newError "Not Found")),
        [.getEv ("https://file.io" ++ "/" ++ "not_exists")]) :=
  (download_failure_no_destination_write notFoundClient testFS "https://file.io"
    "not_exists" "test2.txt").1 notFoundResp (by rfl) (by decide)

-- ### Claims about the multipart body builder

/-- C3 counterexample: `createBody` uses the input path itself as the part's
file name (Go passes `file` unchanged to `CreateFormFile`), so for the path
`/data/file.txt` the file name is `/data/file.txt` and not its base name
`file.txt` as the claim states. -/
theorem createBody_filename_not_basename :
    createBody pathFS "B" "/data/file.txt" =
      .ok (pathBody, "multipart/form-data; boundary=" ++ "B") ∧
    pathBody.parts = [("file", "/data/file.txt", "hello")] ∧
    basename "/data/file.txt" = "file.txt" ∧
    ("/data/file.txt" : String) ≠ "file.txt" :=
  ⟨by rfl, by rfl, by decide, by decide⟩

/-- C3 (amended): for every readable file, `createBody` produces a multipart
body with exactly one part, field name `"file"`, file name the input path
exactly as given, content the full file bytes, and returns the exact
content-type string including the boundary. -/
theorem createBody_single_part_verbatim_path (fs : FS) (b file content : String)
    (h : fs.readFile file = some content) :
    createBody fs b file =
      .ok ({ boundary := b, parts := [("file", file, content)] },
        "multipart/form-data; boundary=" ++ b) := by
  unfold createBody
  rw [h]

theorem createBody_single_part_verbatim_path_witness :
    createBody testFS "B" "test.txt" =
      .ok ({ boundary := "B", parts := [("file", "test.txt", "This is a test")] },
        "multipart/form-data; boundary=" ++ "B") :=
  createBody_single_part_verbatim_path testFS "B" "test.txt" "This is a test" (by rfl)

-- ### Claims about the upload entry points and their protocol

/-- C2 counterexample: `Upload` posts to the base URL itself (Go:
`postBody(file, URL)`), not to `<base>/`: with base `https://file.io` the
single POST in the trace goes to `https://file.io`, which is not the
`https://file.io/` the claim states. -/
theorem upload_posts_to_base_not_slash :
    (Upload okClient testFS "B" "https://file.io" "test.txt").2 =
      [.postEv "https://file.io" ("multipart/form-data; boundary=" ++ "B") uploadBody] ∧
    ("https://file.io" : String) ≠ "https://file.io/" :=
  ⟨by rfl, by decide⟩

/-- C2 (amended): `Upload file` behaves like an upload requesting the default
14-day expiration for any transport that does not distinguish the two
request URLs, issuing one POST to `<base>` itself (while `UploadWithExpire`
issues one POST to `<base>/?expires=<encoded>`), and on any failure in any
step the step's error is propagated unchanged. -/
theorem upload_default_equivalence_and_protocol (api : HttpClient) (fs : FS)
    (b url file : String) (days : Int) :
    ((∀ ct body, api.post url ct body =
        api.post (url ++ "/?expires=" ++ expires DefaultExpires) ct body) →
      (Upload api fs b url file).1.1 =
        (UploadWithExpire api fs b url file DefaultExpires).1.1 ∧
      (Upload api fs b url file).1.2 =
        (UploadWithExpire api fs b url file DefaultExpires).1.2.2) ∧
    (∀ body ct, createBody fs b file = .ok (body, ct) →
      (Upload api fs b url file).2 = [.postEv url ct body] ∧
      (UploadWithExpire api fs b url file days).2 =
        [.postEv (url ++ "/?expires=" ++ expires days) ct body]) ∧
    (∀ e, createBody fs b file = .error e →
      Upload api fs b url file = (("", some e), [])) ∧
    (∀ body ct e, createBody fs b file = .ok (body, ct) →
      api.post url ct body = .error e →
      Upload api fs b url file = (("", some e), [.postEv url ct body])) ∧
    (∀ body ct resp, createBody fs b file = .ok (body, ct) →
      api.post url ct body = .ok resp →
      (Upload api fs b url file).1.2 = (parseJSON resp.body).2) := by
  refine ⟨?_, ?_, ?_, ?_, ?_⟩
  · intro hpost
    cases hcb : createBody fs b file with
    | error e =>
      rw [Upload_of_postBody_error api fs b url file none e []
          (postBody_createBody_error api fs b file url e hcb),
        UploadWithExpire_of_postBody_error api fs b url file DefaultExpires none e []
          (postBody_createBody_error api fs b file _ e hcb)]
      exact ⟨rfl, rfl⟩
    | ok bc =>
      obtain ⟨body, ct⟩ := bc
      have heq := hpost ct body
      cases hp : api.post (url ++ "/?expires=" ++ expires DefaultExpires) ct body with
      | error e =>
        rw [hp] at heq
        rw [Upload_of_postBody_error api fs b url file none e _
            (postBody_post_error api fs b file url body ct e hcb heq),
          UploadWithExpire_of_postBody_error api fs b url file DefaultExpires none e _
            (postBody_post_error api fs b file _ body ct e hcb hp)]
        exact ⟨rfl, rfl⟩
      | ok resp =>
        rw [hp] at heq
        have hpbU := postBody_post_ok api fs b file url body ct resp hcb heq
        have hpbW := postBody_post_ok api fs b file
          (url ++ "/?expires=" ++ expires DefaultExpires) body ct resp hcb hp
        cases hq : (parseJSON resp.body).2 with
        | some e2 =>
          rw [hq] at hpbU hpbW
          rw [Upload_of_postBody_error api fs b url file _ e2 _ hpbU,
            UploadWithExpire_of_postBody_error api fs b url file DefaultExpires _ e2 _ hpbW]
          exact ⟨rfl, rfl⟩
        | none =>
          rw [hq] at hpbU hpbW
          rw [Upload_of_postBody_ok api fs b url file _ _ hpbU,
            UploadWithExpire_of_postBody_ok api fs b url file DefaultExpires _ _ hpbW]
          exact ⟨rfl, rfl⟩
  · intro body ct hcb
    rw [Upload_trace_eq, UploadWithExpire_trace_eq,
      postBody_trace_ok api fs b file url body ct hcb,
      postBody_trace_ok api fs b file (url ++ "/?expires=" ++ expires days) body ct hcb]
    exact ⟨rfl, rfl⟩
  · intro e hcb
    exact Upload_of_postBody_error api fs b url file none e []
      (postBody_createBody_error api fs b file url e hcb)
  · intro body ct e hcb hp
    exact Upload_of_postBody_error api fs b url file none e _
      (postBody_post_error api fs b file url body ct e hcb hp)
  · intro body ct resp hcb hp
    rw [Upload_err_eq, postBody_post_ok api fs b file url body ct resp hcb hp]

theorem upload_default_equivalence_and_protocol_witness :
    ((Upload okClient testFS "B" "https://file.io" "test.txt").1.1 =
      (UploadWithExpire okClient testFS "B" "https://file.io" "test.txt"
        DefaultExpires).1.1 ∧
      (Upload okClient testFS "B" "https://file.io" "test.txt").1.2 =
        (UploadWithExpire okClient testFS "B" "https://file.io" "test.txt"
          DefaultExpires).1.2.2) ∧
    Upload noTransportClient testFS "B" "file.io" "test.txt" =
      (("", some (.transportError "No transport")),
        [.postEv "file.io" ("multipart/form-data; boundary=" ++ "B") uploadBody]) :=
  ⟨(upload_default_equivalence_and_protocol okClient testFS "B" "https://file.io"
      "test.txt" 5).1 (fun _ _ => rfl),
   (upload_default_equivalence_and_protocol noTransportClient testFS "B" "file.io"
      "test.txt" 5).2.2.2.1 uploadBody ("multipart/form-data; boundary=" ++ "B")
      (.transportError "No transport") (by rfl) (by rfl)⟩
